import Mathlib

/-!
Shallow embedding of the file assets/js/lang-switcher.js (the single source
file of the repository): a client-side language switcher for a static
multi-language site.  Pure string manipulation is translated to executable
Lean functions on `String`; the browser environment (URL, navigator,
localStorage, the flag elements in the DOM) is an explicit `Env` record, and
the observable effects of initialization and of a flag click are explicit
result records.

JavaScript string primitives (toLowerCase, split, trim, …) do not exist
kernel-reducibly in core Lean, so they are re-implemented here on `List Char`
with the exact semantics the script relies on: split keeps empty pieces and
splitting the empty string yields one empty piece, trim removes whitespace,
and so on.
-/

namespace LangSwitcher

/-- JS toLowerCase (ASCII case folding, which is all the script feeds it). -/
def toLowerStr (s : String) : String := String.mk (s.toList.map Char.toLower)

def splitOnCharAux (sep : Char) : List Char → List Char → List String
  | [], acc => [String.mk acc.reverse]
  | c :: cs, acc =>
    if c = sep then String.mk acc.reverse :: splitOnCharAux sep cs []
    else splitOnCharAux sep cs (c :: acc)

/-- JS split for a one-character separator: splitting the empty string gives a
singleton empty piece, and empty pieces between consecutive separators are
kept. -/
def splitOnChar (sep : Char) (s : String) : List String := splitOnCharAux sep s.toList []

/-- JS test that trimming a string leaves nothing: true iff the string is all
whitespace (or empty). -/
def isBlank (s : String) : Bool := s.toList.all Char.isWhitespace

/-- JS join of path pieces with a separator string. -/
def joinWith (sep : String) : List String → String
  | [] => ""
  | x :: xs => xs.foldl (fun a b => a ++ sep ++ b) x

/-- Strip leading and trailing slashes: the anchored-slash regex replacement
performed by markByUrl. -/
def trimSlashes (s : String) : String :=
  String.mk (((s.toList.dropWhile (fun c => c = '/')).reverse.dropWhile
    (fun c => c = '/')).reverse)

/-- JS slice(1), used after checking that the first character is a slash. -/
def dropFirstChar (s : String) : String :=
  match s.toList with
  | [] => s
  | _ :: rest => String.mk rest

/-- JS check that charAt(0) is the slash character. -/
def firstCharIsSlash (s : String) : Bool :=
  match s.toList with
  | [] => false
  | c :: _ => c = '/'

/-- Source constant DEFAULT_LANG: the default language code (value nl). -/
def DEFAULT_LANG : String := "nl"

/-- Source constant SUPPORTED: the supported codes en, nl, uk, ua (ua is kept
in the list as an alias for uk). -/
def SUPPORTED : List String := ["en", "nl", "uk", "ua"]

/-- Source constant STORAGE_KEY: the localStorage key (value site_lang). -/
def STORAGE_KEY : String := "site_lang"

/-- The truncation step of normalizeLang: when the code is longer than two
characters, cut it at the first hyphen (a region-qualified tag reduces to its
base language). -/
def truncAtHyphen (code : String) : String :=
  if code.length > 2 then (splitOnChar '-' code).headD "" else code

/-- Source function normalizeLang.  The argument is `Option String` because
the callers pass possibly-undefined values (the data-lang attribute); the JS
falsiness test on the argument is true exactly for undefined, null and the
empty string here. -/
def normalizeLang : Option String → String
  | none => DEFAULT_LANG
  | some code0 =>
    if code0 = "" then DEFAULT_LANG
    else
      let code := toLowerStr code0
      if code = "ua" then "uk"
      else
        let code2 := truncAtHyphen code
        if code2 ∈ SUPPORTED then (if code2 = "ua" then "uk" else code2)
        else DEFAULT_LANG

/-- The lower-cased, hyphen-truncated base form of an input string: the value
normalizeLang tests for membership in SUPPORTED.  An input is recognized
exactly when its base form is a supported code. -/
def baseOf (s : String) : String := truncAtHyphen (toLowerStr s)

/-- JS truthiness chain over possibly-missing strings (the empty string is
falsy), ending in the empty string. -/
def firstTruthy : List (Option String) → String
  | [] => ""
  | none :: rest => firstTruthy rest
  | some s :: rest => if s = "" then firstTruthy rest else s

/-- Source function pickLangFromNavigator: normalize the first truthy of
navigator.language and navigator.userLanguage (else the empty string). -/
def pickLangFromNavigator (language userLanguage : Option String) : String :=
  normalizeLang (some (firstTruthy [language, userLanguage]))

/-- Source function getCurrentPagePath, with the window location pathname
passed explicitly (the fallback of an empty pathname to the root is handled
at entry, as in the source). -/
def getCurrentPagePath (pathname : String) : String :=
  let path0 := if pathname = "" then "/" else pathname
  if path0 = "/" ∨ path0 = "/index.html" then "index.html"
  else
    let path1 := if firstCharIsSlash path0 then dropFirstChar path0 else path0
    let parts := (splitOnChar '/' path1).filter (fun s => s ≠ "")
    let first := toLowerStr (parts.headD "")
    let parts2 := if first ∈ SUPPORTED ∨ first = "ua" then parts.tail else parts
    let rest := joinWith "/" parts2
    if rest = "" then "index.html" else rest

/-- The page-path resolution rules as the specification states them (for
comparison with `getCurrentPagePath`, which is translated from the source):
the root path or root index maps to the canonical index name; otherwise strip
the leading slash, split into (non-empty) segments, drop the leading segment
when it matches a supported language code (including the alias,
case-insensitively), rejoin the remaining segments, and map an empty
remainder to the canonical index name. -/
def resolvePagePath (p : String) : String :=
  if p = "/" ∨ p = "/index.html" then "index.html"
  else
    let stripped := if firstCharIsSlash p then dropFirstChar p else p
    let segments := (splitOnChar '/' stripped).filter (fun s => s ≠ "")
    let lead := toLowerStr (segments.headD "")
    let kept := if lead ∈ SUPPORTED ∨ lead = "ua" then segments.tail else segments
    let rest := joinWith "/" kept
    if rest = "" then "index.html" else rest

/-- Source function buildTargetUrl: the path slash-lang-slash-page followed by
the current search string and hash, with a blank page replaced by the
canonical index name (search and hash passed explicitly). -/
def buildTargetUrl (lang page search hash : String) : String :=
  let page := if page = "" ∨ isBlank page then "index.html" else page
  "/" ++ lang ++ "/" ++ page ++ search ++ hash

/-- Outcome of the HEAD fetch inside pageExists: either a response with its ok
flag, or the fetch threw. -/
inductive ProbeResult where
  | resp (ok : Bool)
  | err
deriving DecidableEq, Repr

/-- Source function pageExists: the ok flag of the response, and false when
the fetch throws (the catch branch). -/
def pageExists : ProbeResult → Bool
  | .resp ok => ok
  | .err => false

/-- A flag element: an image with a data-lang attribute inside a
lang-switcher container.  `dataLang` is the attribute value (absent attribute
= `none`); `active` is membership of the active CSS class. -/
structure Flag where
  dataLang : Option String
  active : Bool
deriving DecidableEq, Repr

/-- Body of the forEach in markActiveFlag: set the active class iff the
normalized data-lang attribute equals the given language. -/
def applyMark (lang : String) (img : Flag) : Flag :=
  if normalizeLang img.dataLang = lang then { img with active := true }
  else { img with active := false }

/-- Source function markActiveFlag acting on the list of flag elements (the
early return on an empty query result included). -/
def markActiveFlag (lang : String) (flags : List Flag) : List Flag :=
  if flags.length = 0 then flags else flags.map (applyMark lang)

/-- The browser state the script reads: URL parts, the navigator language
fields, the localStorage slot for STORAGE_KEY, whether localStorage access
works (reads resp. writes throw when storage is disabled), and the flag
elements found in the document. -/
structure Env where
  pathname : String
  search : String
  hash : String
  navigatorLanguage : Option String
  navigatorUserLanguage : Option String
  stored : Option String
  storageReadOk : Bool
  storageWriteOk : Bool
  flags : List Flag
deriving Repr

/-- Lines 96-101 of initLangSwitcher: normalize the stored value (the empty
string when absent); if the result is falsy or equals DEFAULT_LANG, fall back
to the navigator-derived language (or DEFAULT_LANG when that is falsy). -/
def resolveEffectiveLang (stored : Option String) (navLang : String) : String :=
  let saved := normalizeLang (some (stored.getD ""))
  if saved = "" ∨ saved = DEFAULT_LANG then
    if navLang = "" then DEFAULT_LANG else navLang
  else saved

/-- Observable effects of initLangSwitcher.  `replaceRedirect` is the argument
of the location.replace call (a history-replacing navigation) when the root
redirect fires; `threw` records an uncaught exception escaping the
function. -/
structure InitResult where
  replaceRedirect : Option String
  storedAfter : Option String
  flagsAfter : List Flag
  handlersAttached : Nat
  threw : Bool
deriving DecidableEq, Repr

/-- Source function initLangSwitcher.  Faithful points: (1) it returns before
touching storage when no flag elements exist; (2) the localStorage read is
NOT inside a try/catch, so a throwing read aborts the whole function with no
effects; (3) after location.replace, JS execution continues, so highlighting
and markByUrl still run; (4) markByUrl normalizes the first path segment and
only then tests membership in SUPPORTED, and its store write is inside
try/catch. -/
def initLangSwitcher (e : Env) : InitResult :=
  if e.flags.length = 0 then
    { replaceRedirect := none, storedAfter := e.stored, flagsAfter := e.flags,
      handlersAttached := 0, threw := false }
  else if e.storageReadOk = false then
    { replaceRedirect := none, storedAfter := e.stored, flagsAfter := e.flags,
      handlersAttached := 0, threw := true }
  else
    let saved := resolveEffectiveLang e.stored
      (pickLangFromNavigator e.navigatorLanguage e.navigatorUserLanguage)
    let p := if e.pathname = "" then "/" else e.pathname
    let redirect := if p = "/" ∨ p = "/index.html" then
        some (buildTargetUrl saved "index.html" e.search e.hash)
      else none
    let flags1 := markActiveFlag saved e.flags
    let path := toLowerStr (if e.pathname = "" then "/" else e.pathname)
    let first := (splitOnChar '/' (trimSlashes path)).headD ""
    let normFirst := normalizeLang (some first)
    if normFirst ∈ SUPPORTED then
      { replaceRedirect := redirect,
        storedAfter := if e.storageWriteOk then some normFirst else e.stored,
        flagsAfter := markActiveFlag normFirst flags1,
        handlersAttached := e.flags.length, threw := false }
    else
      { replaceRedirect := redirect, storedAfter := e.stored, flagsAfter := flags1,
        handlersAttached := e.flags.length, threw := false }

/-- Observable effects of one run of the click handler.  `hrefNavigate` is the
assignment to the location href (a normal, non-replacing navigation);
`aborted` records the early return after normalization. -/
structure ClickResult where
  storedAfter : Option String
  flagsAfter : List Flag
  hrefNavigate : Option String
  aborted : Bool
deriving DecidableEq, Repr

/-- The asynchronous click handler attached to each flag (lines 119-143).
`clickedLang` is the data-lang attribute of the clicked flag; `probe` is the
outcome of the HEAD request that pageExists performs against the candidate
URL.  The store write is inside try/catch (a failing write is ignored);
navigation goes to the candidate URL when pageExists returns true, otherwise
to the index of the chosen language. -/
def handleFlagClick (e : Env) (clickedLang : Option String)
    (probe : ProbeResult) : ClickResult :=
  let chosen := normalizeLang clickedLang
  if chosen = "" then
    { storedAfter := e.stored, flagsAfter := e.flags, hrefNavigate := none,
      aborted := true }
  else
    let stored1 := if e.storageWriteOk then some chosen else e.stored
    let flags1 := markActiveFlag chosen e.flags
    let page := getCurrentPagePath e.pathname
    let target := buildTargetUrl chosen page e.search e.hash
    let nav := if pageExists probe then target
      else buildTargetUrl chosen "index.html" e.search e.hash
    { storedAfter := stored1, flagsAfter := flags1, hrefNavigate := some nav,
      aborted := false }

/-! Concrete browser environments used to evaluate the model at specific
inputs (witnesses and counterexamples). -/

/-- Page load of the path to about.html (no language prefix) with a stored
preference en, working storage, one flag element in the document. -/
def envAboutPage : Env :=
  { pathname := "/about.html", search := "", hash := "",
    navigatorLanguage := none, navigatorUserLanguage := none,
    stored := some "en", storageReadOk := true, storageWriteOk := true,
    flags := [{ dataLang := some "en", active := true }] }

/-- Page load of the site root with stored preference nl (the default
language) and browser locale en-US. -/
def envRootStoredNl : Env :=
  { pathname := "/", search := "", hash := "",
    navigatorLanguage := some "en-US", navigatorUserLanguage := none,
    stored := some "nl", storageReadOk := true, storageWriteOk := true,
    flags := [{ dataLang := some "en", active := false }] }

/-- Page load of the site root with no stored preference and browser locale
uk-UA. -/
def envRootUkUA : Env :=
  { pathname := "/", search := "", hash := "",
    navigatorLanguage := some "uk-UA", navigatorUserLanguage := none,
    stored := none, storageReadOk := true, storageWriteOk := true,
    flags := [{ dataLang := some "uk", active := false }] }

/-- A visit to the nl services page with working storage and one nl flag. -/
def envServicesNl : Env :=
  { pathname := "/nl/services.html", search := "", hash := "",
    navigatorLanguage := none, navigatorUserLanguage := none,
    stored := none, storageReadOk := true, storageWriteOk := true,
    flags := [{ dataLang := some "nl", active := true }] }

/-- A page load where reading localStorage throws (storage disabled), at the
site root, with a flag element present. -/
def envReadThrows : Env :=
  { pathname := "/", search := "", hash := "",
    navigatorLanguage := some "en", navigatorUserLanguage := none,
    stored := some "en", storageReadOk := false, storageWriteOk := false,
    flags := [{ dataLang := some "en", active := false }] }

/-- A visit to an en page where writing localStorage throws but reading
works. -/
def envWriteThrows : Env :=
  { pathname := "/en/a.html", search := "", hash := "",
    navigatorLanguage := none, navigatorUserLanguage := none,
    stored := some "uk", storageReadOk := true, storageWriteOk := false,
    flags := [{ dataLang := some "en", active := false }] }

/-- A document with no flag elements, at the site root, with storage disabled
and a stored value present. -/
def envNoFlags : Env :=
  { pathname := "/", search := "?q=1", hash := "#h",
    navigatorLanguage := some "uk-UA", navigatorUserLanguage := none,
    stored := some "en", storageReadOk := false, storageWriteOk := false,
    flags := [] }

/-- An en page with two flags, stored preference en, working storage: the
environment for a click on a flag whose data-lang attribute is missing. -/
def envEmptyAttrClick : Env :=
  { pathname := "/en/a.html", search := "", hash := "",
    navigatorLanguage := none, navigatorUserLanguage := none,
    stored := some "en", storageReadOk := true, storageWriteOk := true,
    flags := [{ dataLang := some "en", active := true },
              { dataLang := some "nl", active := false }] }

/-! General lemmas about normalizeLang, shared by several claims. -/

theorem lastStep_mem (x : String) :
    (if x ∈ SUPPORTED then (if x = "ua" then "uk" else x) else DEFAULT_LANG)
      ∈ (["en", "nl", "uk"] : List String) := by
  by_cases hx : x ∈ SUPPORTED
  · simp only [if_pos hx]
    by_cases hu : x = "ua"
    · simp [hu]
    · simp only [if_neg hu]
      simp only [SUPPORTED, List.mem_cons, List.not_mem_nil, or_false] at hx
      rcases hx with h | h | h | h <;> simp [h] at hu ⊢
  · simp [hx, DEFAULT_LANG]

theorem normalizeLang_mem_core (c : Option String) :
    normalizeLang c ∈ (["en", "nl", "uk"] : List String) := by
  match c with
  | none => simp [normalizeLang, DEFAULT_LANG]
  | some s =>
    by_cases h1 : s = ""
    · simp [normalizeLang, h1, DEFAULT_LANG]
    · by_cases h2 : toLowerStr s = "ua"
      · simp [normalizeLang, h1, h2]
      · have h := lastStep_mem (truncAtHyphen (toLowerStr s))
        simpa [normalizeLang, h1, h2] using h

theorem normalizeLang_fix (r : String) (h : r ∈ (["en", "nl", "uk"] : List String)) :
    normalizeLang (some r) = r := by
  simp only [List.mem_cons, List.not_mem_nil, or_false] at h
  rcases h with h | h | h <;> rw [h] <;> decide

theorem normalizeLang_idem (c : Option String) :
    normalizeLang (some (normalizeLang c)) = normalizeLang c :=
  normalizeLang_fix _ (normalizeLang_mem_core c)

theorem normalizeLang_ne_empty (c : Option String) : normalizeLang c ≠ "" := by
  have h := normalizeLang_mem_core c
  simp only [List.mem_cons, List.not_mem_nil, or_false] at h
  rcases h with h | h | h <;> rw [h] <;> decide

theorem normalizeLang_mem (c : Option String) : normalizeLang c ∈ SUPPORTED := by
  have h := normalizeLang_mem_core c
  simp only [List.mem_cons, List.not_mem_nil, or_false] at h
  rcases h with h | h | h <;> rw [h] <;> decide

/-- Claim C6: for every input (including the absent and the empty string),
normalizeLang returns a member of the supported-language set; it is
idempotent; absent or empty input yields the default language; and
unrecognized input (one whose lower-cased, hyphen-truncated base form is not
a supported code) yields the default language. -/
theorem normalizeLang_total_spec (c : Option String) :
    normalizeLang c ∈ SUPPORTED ∧
    normalizeLang (some (normalizeLang c)) = normalizeLang c ∧
    ((c = none ∨ c = some "") → normalizeLang c = DEFAULT_LANG) ∧
    (∀ s : String, c = some s → baseOf s ∉ SUPPORTED →
      normalizeLang c = DEFAULT_LANG) := by
  refine ⟨normalizeLang_mem c, normalizeLang_idem c, ?_, ?_⟩
  · rintro (rfl | rfl) <;> decide
  · rintro s rfl hb
    by_cases h1 : s = ""
    · simp [normalizeLang, h1]
    · by_cases h2 : toLowerStr s = "ua"
      · exfalso
        apply hb
        have hba : baseOf s = "ua" := by unfold baseOf; rw [h2]; decide
        rw [hba]; decide
      · unfold baseOf at hb
        simp [normalizeLang, h1, h2, hb]

/-- Witness for C6 at the concrete inputs none and a region-qualified
unrecognized tag. -/
theorem normalizeLang_total_spec_witness :
    normalizeLang (some "zz-XX") ∈ SUPPORTED ∧
    normalizeLang (some (normalizeLang (some "zz-XX"))) = normalizeLang (some "zz-XX") ∧
    normalizeLang none = DEFAULT_LANG ∧
    normalizeLang (some "zz-XX") = DEFAULT_LANG := by
  have h := normalizeLang_total_spec (some "zz-XX")
  have h0 := normalizeLang_total_spec none
  exact ⟨h.1, h.2.1, h0.2.2.1 (Or.inl rfl), h.2.2.2 "zz-XX" rfl (by decide)⟩

theorem markActiveFlag_eq_map (L : String) (flags : List Flag) :
    markActiveFlag L flags = flags.map (applyMark L) := by
  cases flags <;> simp [markActiveFlag]

theorem applyMark_dataLang (L : String) (f : Flag) :
    (applyMark L f).dataLang = f.dataLang := by
  unfold applyMark; split_ifs <;> rfl

theorem applyMark_active (L : String) (f : Flag) :
    ((applyMark L f).active = true ↔ normalizeLang f.dataLang = L) := by
  unfold applyMark; split_ifs with h <;> simp [h]

theorem applyMark_applyMark (L L' : String) (f : Flag) :
    applyMark L' (applyMark L f) = applyMark L' f := by
  by_cases h : normalizeLang f.dataLang = L <;> simp [applyMark, h]

/-- Claim C9: after invoking the highlighting operation for a language L on
any collection of flag elements, the collection keeps its identities (the
data-lang attributes, in order), exactly those elements whose normalized
attribute equals L carry the active marker, and a repeated invocation (same
or different language) gives the same result as a single invocation for the
later language. -/
theorem markActiveFlag_exclusive (L : String) (flags : List Flag) :
    ((markActiveFlag L flags).map Flag.dataLang = flags.map Flag.dataLang) ∧
    (∀ f ∈ markActiveFlag L flags, (f.active = true ↔ normalizeLang f.dataLang = L)) ∧
    (∀ L', markActiveFlag L' (markActiveFlag L flags) = markActiveFlag L' flags) := by
  refine ⟨?_, ?_, ?_⟩
  · rw [markActiveFlag_eq_map, List.map_map]
    exact List.map_congr_left (fun a _ => applyMark_dataLang L a)
  · intro f hf
    rw [markActiveFlag_eq_map] at hf
    obtain ⟨g, hg, rfl⟩ := List.mem_map.mp hf
    rw [applyMark_dataLang]
    exact applyMark_active L g
  · intro L'
    simp only [markActiveFlag_eq_map, List.map_map]
    exact List.map_congr_left (fun a _ => applyMark_applyMark L L' a)

/-- Witness for C9: a concrete two-flag collection highlighted for en, with
the membership hypothesis discharged on a concrete element. -/
theorem markActiveFlag_exclusive_witness :
    ((⟨some "EN", true⟩ : Flag).active = true ↔ normalizeLang (some "EN") = "en") := by
  have h := (markActiveFlag_exclusive "en"
    [⟨some "EN", false⟩, ⟨some "nl", true⟩]).2.1 ⟨some "EN", true⟩ (by decide)
  simpa using h

/-- Claim C8: the current-page-path resolution agrees everywhere with the
rules as the specification states them (root forms map to the index name;
otherwise strip the leading slash, split into segments, drop a leading
supported-language segment including the alias, rejoin, empty remainder maps
to the index name), and the concrete examples of the specification hold. -/
theorem getCurrentPagePath_spec :
    (∀ p, getCurrentPagePath p = resolvePagePath p) ∧
    getCurrentPagePath "/" = "index.html" ∧
    getCurrentPagePath "/index.html" = "index.html" ∧
    getCurrentPagePath "/en/about.html" = "about.html" ∧
    getCurrentPagePath "/about.html" = "about.html" ∧
    getCurrentPagePath "/en/" = "index.html" ∧
    getCurrentPagePath "/ua/about.html" = "about.html" := by
  refine ⟨?_, by decide, by decide, by decide, by decide, by decide, by decide⟩
  intro p
  by_cases hp : p = ""
  · subst hp; decide
  · simp only [getCurrentPagePath, resolvePagePath, if_neg hp]

/-- Claim C5: for every flag click the handler navigates to the candidate URL
(built from the normalized clicked language and the current page identity)
exactly when the existence probe confirms it present, and to the index URL of
the chosen language in every other case; both a non-ok response and a thrown
probe count as not confirmed. -/
theorem click_navigation (e : Env) (clicked : Option String) (probe : ProbeResult) :
    (pageExists probe = true →
      (handleFlagClick e clicked probe).hrefNavigate =
        some (buildTargetUrl (normalizeLang clicked)
          (getCurrentPagePath e.pathname) e.search e.hash)) ∧
    (pageExists probe = false →
      (handleFlagClick e clicked probe).hrefNavigate =
        some (buildTargetUrl (normalizeLang clicked) "index.html" e.search e.hash)) ∧
    pageExists (.resp false) = false ∧ pageExists .err = false := by
  refine ⟨?_, ?_, rfl, rfl⟩ <;> intro hp <;>
    simp [handleFlagClick, normalizeLang_ne_empty clicked, hp]

/-- Witness for C5: clicking the en flag on the nl services page with the
candidate page confirmed absent navigates to the en index. -/
theorem click_navigation_witness :
    (handleFlagClick envServicesNl (some "en") (.resp false)).hrefNavigate
      = some "/en/index.html" := by
  have h := (click_navigation envServicesNl (some "en") (.resp false)).2.1 rfl
  rw [h]; decide

/-- Counterexample to claim C3 as stated: a click on a flag whose data-lang
attribute is absent does NOT abort — the stored preference changes from en to
nl, the highlighting moves to the nl flag, and a navigation to the nl index
is issued. -/
theorem empty_attr_click_counterexample :
    envEmptyAttrClick.stored = some "en" ∧
    (handleFlagClick envEmptyAttrClick none .err) =
      { storedAfter := some "nl",
        flagsAfter := [{ dataLang := some "en", active := false },
                       { dataLang := some "nl", active := true }],
        hrefNavigate := some "/nl/index.html", aborted := false } := by decide

/-- Claim C3 as amended: the handler normalizes the clicked attribute and has
a guard that would abort on an empty normalization result, but normalization
always yields a non-empty supported code (an empty or absent attribute
normalizes to the default language), so the guard never fires: every click
persists the normalized language (when storage writes work), updates the
highlighting, and issues a navigation. -/
theorem click_always_proceeds (e : Env) (clicked : Option String) (probe : ProbeResult) :
    (handleFlagClick e clicked probe).aborted = false ∧
    (handleFlagClick e clicked probe).hrefNavigate.isSome = true ∧
    (handleFlagClick e clicked probe).flagsAfter
      = markActiveFlag (normalizeLang clicked) e.flags ∧
    (e.storageWriteOk = true →
      (handleFlagClick e clicked probe).storedAfter = some (normalizeLang clicked)) := by
  refine ⟨?_, ?_, ?_, fun hw => ?_⟩ <;>
    simp [handleFlagClick, normalizeLang_ne_empty clicked]
  simp [hw]

/-- Witness for the amended C3: a click with an empty attribute on the nl
services page persists the default language nl. -/
theorem click_always_proceeds_witness :
    (handleFlagClick envServicesNl (some "") (.resp true)).storedAfter = some "nl" := by
  have h := (click_always_proceeds envServicesNl (some "") (.resp true)).2.2.2 rfl
  rw [h]; decide

/-- Counterexample to claim C2 as stated: a stored preference nl is supported
and normalizes to itself, yet because it equals the default language the
browser locale en-US is consulted and wins — the effective language is en,
and the root redirect goes to the en index instead of the nl index. -/
theorem stored_default_ignored_counterexample :
    envRootStoredNl.stored = some "nl" ∧ ("nl" : String) ∈ SUPPORTED ∧
    normalizeLang (some "nl") = "nl" ∧
    resolveEffectiveLang (some "nl") (pickLangFromNavigator (some "en-US") none) = "en" ∧
    (initLangSwitcher envRootStoredNl).replaceRedirect = some "/en/index.html" := by
  decide

/-- Claim C2 as amended: the stored preference is used — and the browser
locale ignored — exactly when it normalizes to a supported language different
from the default; a stored value that is absent, unrecognized, or normalizes
to the default language causes the browser-derived language to be used, with
the default language as final fallback. -/
theorem resolve_priority (stored : Option String) (nav : String) :
    (normalizeLang (some (stored.getD "")) ≠ DEFAULT_LANG →
      resolveEffectiveLang stored nav = normalizeLang (some (stored.getD "")) ∧
      (∀ nav', resolveEffectiveLang stored nav' = resolveEffectiveLang stored nav)) ∧
    (normalizeLang (some (stored.getD "")) = DEFAULT_LANG →
      resolveEffectiveLang stored nav = if nav = "" then DEFAULT_LANG else nav) := by
  constructor
  · intro h
    constructor
    · simp [resolveEffectiveLang, h, normalizeLang_ne_empty (some (stored.getD ""))]
    · intro nav'
      simp [resolveEffectiveLang, h, normalizeLang_ne_empty (some (stored.getD ""))]
  · intro h
    simp [resolveEffectiveLang, h]

/-- Witness for the amended C2 at concrete stored values en and nl. -/
theorem resolve_priority_witness :
    resolveEffectiveLang (some "en") "uk" = normalizeLang (some "en") ∧
    resolveEffectiveLang (some "nl") "uk"
      = (if ("uk" : String) = "" then DEFAULT_LANG else "uk") := by
  exact ⟨((resolve_priority (some "en") "uk").1 (by decide)).1,
         (resolve_priority (some "nl") "uk").2 (by decide)⟩

/-- Claim C1, evaluated at the failing input: a page load of a path whose
leading segment is not a language code (about.html at top level), with a
stored preference en, terminates normally and OVERWRITES the stored
preference with the default language — markByUrl normalizes the segment
before testing membership, and normalization always yields a supported code,
so the persist branch runs on every such page load. -/
theorem init_overwrites_pref_on_plain_path :
    envAboutPage.stored = some "en" ∧
    (initLangSwitcher envAboutPage).storedAfter = some DEFAULT_LANG ∧
    (initLangSwitcher envAboutPage).threw = false := by decide

/-- Claim C4, evaluated at the failing input: when the localStorage read at
initialization throws (storage disabled), the exception is uncaught and
initialization aborts — no root redirect, no handlers attached, highlighting
untouched — even though the site root was being visited.  By contrast a
failing WRITE during click handling is caught: the click still navigates,
with the stored value unchanged. -/
theorem init_read_failure_fatal :
    (initLangSwitcher envReadThrows).threw = true ∧
    (initLangSwitcher envReadThrows).replaceRedirect = none ∧
    (initLangSwitcher envReadThrows).handlersAttached = 0 ∧
    (initLangSwitcher envReadThrows).flagsAfter = envReadThrows.flags ∧
    (handleFlagClick envWriteThrows (some "uk") (.resp true)).hrefNavigate
      = some "/uk/a.html" ∧
    (handleFlagClick envWriteThrows (some "uk") (.resp true)).storedAfter
      = envWriteThrows.stored := by decide

/-- Claim C7: on a page load whose path is the site root or the root index,
with flag elements present and a working storage read, initialization
performs a history-replacing redirect to the index URL of the effective
language (the stored/browser/default resolution), with the query string and
fragment preserved. -/
theorem root_redirect (e : Env) (hf : e.flags.length ≠ 0)
    (hr : e.storageReadOk = true)
    (hp : e.pathname = "/" ∨ e.pathname = "/index.html") :
    (initLangSwitcher e).replaceRedirect =
      some (buildTargetUrl
        (resolveEffectiveLang e.stored
          (pickLangFromNavigator e.navigatorLanguage e.navigatorUserLanguage))
        "index.html" e.search e.hash) := by
  have hr' : ¬(e.storageReadOk = false) := by rw [hr]; decide
  rcases hp with h | h <;>
    simp only [initLangSwitcher, if_neg hf, if_neg hr', h] <;>
    split <;> split <;> rfl

/-- Witness for C7: visiting the root with no stored preference and browser
locale uk-UA redirects (history-replacing) to the uk index. -/
theorem root_redirect_witness :
    (initLangSwitcher envRootUkUA).replaceRedirect = some "/uk/index.html" := by
  have h := root_redirect envRootUkUA (by decide) rfl (Or.inl rfl)
  rw [h]; decide

/-- Claim C10: when the document contains no flag elements, initialization is
a complete no-op — no redirect, the stored preference untouched, no
highlighting, no handlers attached, and no exception even when storage is
disabled (the storage slot is never read). -/
theorem init_noop_without_flags (e : Env) (h : e.flags = []) :
    initLangSwitcher e =
      { replaceRedirect := none, storedAfter := e.stored, flagsAfter := e.flags,
        handlersAttached := 0, threw := false } := by
  simp [initLangSwitcher, h]

/-- Witness for C10: a flagless document at the site root with storage
disabled — initialization does nothing and does not throw. -/
theorem init_noop_without_flags_witness :
    initLangSwitcher envNoFlags =
      { replaceRedirect := none, storedAfter := some "en", flagsAfter := [],
        handlersAttached := 0, threw := false } := by
  have h := init_noop_without_flags envNoFlags rfl
  rw [h]; decide

end LangSwitcher
